import Mathlib

/-!
Shallow embedding of the CapMatch front-end metric-normalization and
derived-metrics layer.

Numeric payload fields are modelled as `Option ℚ` (absent vs. present JS
numbers).  JS `x || d` on a numeric field treats 0 as falsy, `Math.round`
rounds half toward positive infinity, and `toFixed(1)` rounds to one
decimal place; each is given its own definition below.  A JS division that
can produce `NaN`/`Infinity` (division by zero) is modelled as an
`Option ℚ` that is `none` exactly in the divide-by-zero case.
-/

namespace CapMatch

/-- JS `Math.round`: round half toward positive infinity. -/
def jsRound (q : ℚ) : ℚ := (⌊q + 1 / 2⌋ : ℤ)

/-- JS `Number.toFixed(1)` read back as a rational: round to one decimal
place, ties toward positive infinity (ECMA-262 picks the larger candidate). -/
def toFixed1 (q : ℚ) : ℚ := ((⌊q * 10 + 1 / 2⌋ : ℤ) : ℚ) / 10

/-- JS `x || d` for an optional numeric field: absence and 0 are falsy. -/
def jsOr (x : Option ℚ) (d : ℚ) : ℚ :=
  match x with
  | some v => if v = 0 then d else v
  | none => d

/-- JS `x || d` for an optional integer field (year strings fed to
`parseInt`): absence and 0 are falsy. -/
def jsOrInt (x : Option ℤ) (d : ℤ) : ℤ :=
  match x with
  | some v => if v = 0 then d else v
  | none => d

/-- JS division producing a plain number only when the divisor is nonzero;
`none` models the `NaN`/`Infinity` result of dividing by zero. -/
def jsDiv (a b : ℚ) : Option ℚ := if b = 0 then none else some (a / b)

/-- The bag of scalar metrics carried by a `current`/`historical` object
(or by its nested `data` object).  Every field is optional; absent fields
default to 0 at the extraction sites via `|| 0`. -/
structure MetricBag where
  total_population : Option ℚ := none
  median_household_income : Option ℚ := none
  median_age : Option ℚ := none
  median_home_value : Option ℚ := none
  bachelors_degree : Option ℚ := none
  masters_degree : Option ℚ := none
  professional_degree : Option ℚ := none
  doctorate_degree : Option ℚ := none
  labor_force : Option ℚ := none
  employed : Option ℚ := none
  income_less_10k : Option ℚ := none
  income_10k_15k : Option ℚ := none
  income_15k_20k : Option ℚ := none
  income_20k_25k : Option ℚ := none
  income_25k_30k : Option ℚ := none
  income_30k_35k : Option ℚ := none
  income_35k_40k : Option ℚ := none
  income_40k_45k : Option ℚ := none
  income_45k_50k : Option ℚ := none
  income_50k_60k : Option ℚ := none
  income_60k_75k : Option ℚ := none
  income_75k_100k : Option ℚ := none
  income_100k_125k : Option ℚ := none
  income_125k_150k : Option ℚ := none
  income_150k_200k : Option ℚ := none
  income_200k_plus : Option ℚ := none
deriving DecidableEq

/-- One `current`/`historical` object: metric fields may sit directly on
the object (`bag`) or one level deeper under a `data` field; the object may
also carry a `year` tag read by the education component. -/
structure MetricSection where
  data : Option MetricBag := none
  bag : MetricBag := {}
  year : Option ℤ := none
deriving DecidableEq

/-- One radius record of `demographics.radius_data`. -/
structure RadiusRecord where
  current : Option MetricSection := none
  historical : Option MetricSection := none
  tract_count : Option ℚ := none
deriving DecidableEq

/-- The access pattern `rec?.current?.data || rec?.current || \x7b\x7d`:
prefer the nested `data` bag, fall back to the flat object, then to an
empty bag. -/
def resolveBag (s : Option MetricSection) : MetricBag :=
  match s with
  | none => {}
  | some sec =>
    match sec.data with
    | some b => b
    | none => sec.bag

/-- `rec?.tract_count || 1`. -/
def tractCount (r : Option RadiusRecord) : ℚ :=
  jsOr (r.bind RadiusRecord.tract_count) 1

/-- The resolved `current` bag of a (possibly absent) radius record. -/
def currentBag (r : Option RadiusRecord) : MetricBag :=
  resolveBag (r.bind RadiusRecord.current)

/-- The resolved `historical` bag of a (possibly absent) radius record. -/
def historicalBag (r : Option RadiusRecord) : MetricBag :=
  resolveBag (r.bind RadiusRecord.historical)

/-- `currentData.total_population || 0`. -/
def rawPopulation (r : Option RadiusRecord) : ℚ :=
  jsOr (currentBag r).total_population 0

/-- `currentData.median_household_income || 0`. -/
def rawIncome (r : Option RadiusRecord) : ℚ :=
  jsOr (currentBag r).median_household_income 0

/-- `currentData.median_age || 0`. -/
def rawAge (r : Option RadiusRecord) : ℚ :=
  jsOr (currentBag r).median_age 0

/-- `currentData.median_home_value || 0`. -/
def rawHomeValue (r : Option RadiusRecord) : ℚ :=
  jsOr (currentBag r).median_home_value 0

/-- `currentData.labor_force || 0` (MarketMetricsDashboard). -/
def laborForceDash (r : Option RadiusRecord) : ℚ :=
  jsOr (currentBag r).labor_force 0

/-- `currentData.employed || 0` (MarketMetricsDashboard). -/
def employedDash (r : Option RadiusRecord) : ℚ :=
  jsOr (currentBag r).employed 0

/-- `historicalData.employed || 0` (MarketMetricsDashboard). -/
def historicalEmployedDash (r : Option RadiusRecord) : ℚ :=
  jsOr (historicalBag r).employed 0

/-! ### PopulationAnalysis, components/PopulationAnalysis.tsx (variant A)

`actualIncome = tractCount > 1 ? Math.round(medianIncome / tractCount) : medianIncome`
`actualAge = tractCount > 1 ? (medianAge / tractCount) : medianAge`, then
bounded to [0, 100] with fallback 38. -/

def actualIncomeA (r : Option RadiusRecord) : ℚ :=
  if 1 < tractCount r then jsRound (rawIncome r / tractCount r) else rawIncome r

def dividedAgeA (r : Option RadiusRecord) : ℚ :=
  if 1 < tractCount r then rawAge r / tractCount r else rawAge r

def actualAgeA (r : Option RadiusRecord) : ℚ :=
  if dividedAgeA r < 0 ∨ 100 < dividedAgeA r then 38 else dividedAgeA r

/-! ### PopulationAnalysis variant in pages/DemographicsDetail.tsx (variant B)

`actualIncome = tractCount > 1 && medianIncome > 1000000 ? Math.round(...) : medianIncome`
`actualAge = tractCount > 1 && medianAge > 100 ? (medianAge / tractCount) : medianAge`,
then the same [0, 100] bounding with fallback 38. -/

def actualIncomeB (r : Option RadiusRecord) : ℚ :=
  if 1 < tractCount r ∧ 1000000 < rawIncome r then
    jsRound (rawIncome r / tractCount r)
  else rawIncome r

def dividedAgeB (r : Option RadiusRecord) : ℚ :=
  if 1 < tractCount r ∧ 100 < rawAge r then rawAge r / tractCount r else rawAge r

def actualAgeB (r : Option RadiusRecord) : ℚ :=
  if dividedAgeB r < 0 ∨ 100 < dividedAgeB r then 38 else dividedAgeB r

/-! ### MarketMetricsDashboard (src/unnamed/part_002) -/

def actualIncomeDash (r : Option RadiusRecord) : ℚ :=
  if 1 < tractCount r then jsRound (rawIncome r / tractCount r) else rawIncome r

def actualHomeValueDash (r : Option RadiusRecord) : ℚ :=
  if 1 < tractCount r then jsRound (rawHomeValue r / tractCount r) else rawHomeValue r

def dividedAgeDash (r : Option RadiusRecord) : ℚ :=
  if 1 < tractCount r ∧ 100 < rawAge r then jsRound (rawAge r / tractCount r) else rawAge r

def actualAgeDash (r : Option RadiusRecord) : ℚ :=
  if dividedAgeDash r < 0 ∨ 100 < dividedAgeDash r then 38 else dividedAgeDash r

def jobsAddedDash (r : Option RadiusRecord) : ℚ :=
  employedDash r - historicalEmployedDash r

/-- `affordabilityRatio = actualIncome > 0 ? actualHomeValue / actualIncome : 0`. -/
def affordabilityRatioOf (homeValue income : ℚ) : ℚ :=
  if 0 < income then homeValue / income else 0

/-- `getAffordabilityStatus` from MarketMetricsDashboard. -/
def getAffordabilityStatus (x : ℚ) : String :=
  if x ≤ 3 then "Affordable"
  else if x ≤ 5 then "Moderately Unaffordable"
  else "Severely Unaffordable"

/-! ### HomeValue chart, components/HomeValue.tsx `getChartData`

Note the access pattern here is `radiusInfo?.current?.median_home_value || 0`
with NO fallback to a nested `data` bag, unlike the other components. -/

/-- `radiusInfo?.current?.median_home_value || 0` (flat layout only). -/
def homeValueChartCurrent (r : Option RadiusRecord) : ℚ :=
  jsOr ((r.bind RadiusRecord.current).bind fun s => s.bag.median_home_value) 0

/-- `radiusInfo?.historical?.median_home_value || 0` (flat layout only). -/
def homeValueChartHistorical (r : Option RadiusRecord) : ℚ :=
  jsOr ((r.bind RadiusRecord.historical).bind fun s => s.bag.median_home_value) 0

/-- Guarded growth percentage of `getChartData`: the formula is applied only
when both values are positive, else the string stays `0.0`. -/
def homeValueGrowthPercent (r : Option RadiusRecord) : ℚ :=
  if 0 < homeValueChartHistorical r ∧ 0 < homeValueChartCurrent r then
    toFixed1 ((homeValueChartCurrent r - homeValueChartHistorical r) /
      homeValueChartHistorical r * 100)
  else 0

/-- The 5-mile population shown on the search-result card
(src/unnamed/part_000): `...['5_mile']?.current?.total_population || 0`,
again with no `data` fallback. -/
def population5MileCard (r : Option RadiusRecord) : ℚ :=
  jsOr ((r.bind RadiusRecord.current).bind fun s => s.bag.total_population) 0

/-! ### EducationDistribution, components/EducationDistribution.tsx -/

/-- `parseInt(...?.current?.year || '2022')` (flat `year` field only). -/
def currentYearOf (r : Option RadiusRecord) : ℤ :=
  jsOrInt ((r.bind RadiusRecord.current).bind MetricSection.year) 2022

/-- `parseInt(...?.historical?.year || '2017')`. -/
def historicalYearOf (r : Option RadiusRecord) : ℤ :=
  jsOrInt ((r.bind RadiusRecord.historical).bind MetricSection.year) 2017

/-- `currentBachelors + currentMasters + currentProfessional + currentDoctorate`. -/
def currentTotalEdu (r : Option RadiusRecord) : ℚ :=
  jsOr (currentBag r).bachelors_degree 0 + jsOr (currentBag r).masters_degree 0 +
    jsOr (currentBag r).professional_degree 0 + jsOr (currentBag r).doctorate_degree 0

/-- Historical counterpart of `currentTotalEdu`. -/
def historicalTotalEdu (r : Option RadiusRecord) : ℚ :=
  jsOr (historicalBag r).bachelors_degree 0 + jsOr (historicalBag r).masters_degree 0 +
    jsOr (historicalBag r).professional_degree 0 + jsOr (historicalBag r).doctorate_degree 0

/-- Education growth rate, line 223:
`((currentTotal - historicalTotal) / historicalTotal * 100).toFixed(1)` with
no guard on `historicalTotal`; `none` models the `NaN`/`Infinity` string. -/
def eduGrowthPercent (r : Option RadiusRecord) : Option ℚ :=
  (jsDiv (currentTotalEdu r - historicalTotalEdu r) (historicalTotalEdu r)).map
    fun q => toFixed1 (q * 100)

/-- `progress = (year - historicalYear) / (currentYear - historicalYear)`;
`none` models the `NaN` produced when the two years coincide. -/
def eduProgress (r : Option RadiusRecord) (year : ℤ) : Option ℚ :=
  jsDiv ((year - historicalYearOf r : ℤ) : ℚ)
    ((currentYearOf r - historicalYearOf r : ℤ) : ℚ)

/-- `Math.round(historicalTotal + (currentTotal - historicalTotal) * progress)`;
a `NaN` progress propagates. -/
def interpTotalAt (r : Option RadiusRecord) (year : ℤ) : Option ℚ :=
  (eduProgress r year).map fun p =>
    jsRound (historicalTotalEdu r + (currentTotalEdu r - historicalTotalEdu r) * p)

/-- Interpolated bachelors count at a given year, same shape. -/
def interpBachelorsAt (r : Option RadiusRecord) (year : ℤ) : Option ℚ :=
  (eduProgress r year).map fun p =>
    jsRound (jsOr (historicalBag r).bachelors_degree 0 +
      (jsOr (currentBag r).bachelors_degree 0 - jsOr (historicalBag r).bachelors_degree 0) * p)

/-- The loop `for (let year = historicalYear; year <= currentYear; year++)`. -/
def eduYearList (r : Option RadiusRecord) : List ℤ :=
  (List.range (currentYearOf r - historicalYearOf r + 1).toNat).map
    fun i => historicalYearOf r + i

/-- The `totalData` series pushed to the chart. -/
def eduTotalSeries (r : Option RadiusRecord) : List (Option ℚ) :=
  (eduYearList r).map (interpTotalAt r)

/-- The `bachelorsData` series pushed to the chart. -/
def eduBachelorsSeries (r : Option RadiusRecord) : List (Option ℚ) :=
  (eduYearList r).map (interpBachelorsAt r)

/-! ### IncomeDistributionChart, `calculateIncomeDistribution` -/

/-- Sum of the nine sub-band counts below 50k. -/
def under50k (b : MetricBag) : ℚ :=
  jsOr b.income_less_10k 0 + jsOr b.income_10k_15k 0 + jsOr b.income_15k_20k 0 +
    jsOr b.income_20k_25k 0 + jsOr b.income_25k_30k 0 + jsOr b.income_30k_35k 0 +
    jsOr b.income_35k_40k 0 + jsOr b.income_40k_45k 0 + jsOr b.income_45k_50k 0

/-- Sum of the three sub-band counts between 50k and 100k. -/
def from50kTo100k (b : MetricBag) : ℚ :=
  jsOr b.income_50k_60k 0 + jsOr b.income_60k_75k 0 + jsOr b.income_75k_100k 0

/-- Sum of the two sub-band counts between 100k and 150k. -/
def from100kTo150k (b : MetricBag) : ℚ :=
  jsOr b.income_100k_125k 0 + jsOr b.income_125k_150k 0

/-- Sum of the two sub-band counts at 150k and above. -/
def from150kPlus (b : MetricBag) : ℚ :=
  jsOr b.income_150k_200k 0 + jsOr b.income_200k_plus 0

/-- The bucket total reduced over the four coarse buckets. -/
def incomeTotal (b : MetricBag) : ℚ :=
  under50k b + from50kTo100k b + from100kTo150k b + from150kPlus b

/-- `calculateIncomeDistribution`: 25/25/25/25 when the radius is absent or
the bucket total is zero, else the four `toFixed(1)` percentages. -/
def calculateIncomeDistribution (r : Option RadiusRecord) : ℚ × ℚ × ℚ × ℚ :=
  match r with
  | none => (25, 25, 25, 25)
  | some record =>
    let b := resolveBag record.current
    if incomeTotal b = 0 then (25, 25, 25, 25)
    else
      (toFixed1 (under50k b / incomeTotal b * 100),
       toFixed1 (from50kTo100k b / incomeTotal b * 100),
       toFixed1 (from100kTo150k b / incomeTotal b * 100),
       toFixed1 (from150kPlus b / incomeTotal b * 100))

/-- The sum of the four displayed percentages. -/
def distSum (p : ℚ × ℚ × ℚ × ℚ) : ℚ := p.1 + p.2.1 + p.2.2.1 + p.2.2.2

/-! ### SearchPage flow, components/SearchPage.tsx -/

/-- The `radius_data` map of the payload. -/
structure RadiusData where
  one_mile : Option RadiusRecord := none
  three_mile : Option RadiusRecord := none
  five_mile : Option RadiusRecord := none
deriving DecidableEq

/-- The `demographics` payload passed to every chart component. -/
structure Demographics where
  radius_data : RadiusData := {}
deriving DecidableEq

/-- Geocoded coordinates content passed to the map. -/
structure Coordinates where
  lat : ℚ := 0
  lng : ℚ := 0
deriving DecidableEq

/-- The root response returned by `api.getDemographics`. -/
structure DemographicsResponse where
  error : Option String := none
  demographics : Option Demographics := none
  coordinates : Option Coordinates := none
deriving DecidableEq

/-- JS truthiness of an optional string: absent and empty are falsy. -/
def strTruthy (x : Option String) : Bool :=
  match x with
  | some s => !(s == "")
  | none => false

/-- SearchPage component state: `loading`, `error`, `result`. -/
structure SearchState where
  loading : Bool := false
  error : Option String := none
  result : Option DemographicsResponse := none
deriving DecidableEq

/-- One full `handleSubmit` round trip for a nonempty address whose request
succeeds with payload `d`: reset state, then `if (data.error) setError(...)
else setResult(data)`, and finally `setLoading(false)`. -/
def handleResponse (d : DemographicsResponse) : SearchState :=
  let s0 : SearchState := { loading := true, error := none, result := none }
  let s1 := if strTruthy d.error then { s0 with error := d.error }
            else { s0 with result := some d }
  { s1 with loading := false }

/-- What the results area of SearchPage renders. -/
inductive ResultView where
  | card (d : DemographicsResponse)
  | debugPanel (d : DemographicsResponse)
  | emptyView
deriving DecidableEq

/-- The JSX guards: the card needs
`result && !loading && !result.error && result.demographics`; the debug
panel needs `result && !loading && !result.demographics`. -/
def resultView (s : SearchState) : ResultView :=
  match s.result with
  | none => ResultView.emptyView
  | some d =>
    if s.loading = false ∧ strTruthy d.error = false ∧ d.demographics.isSome = true then
      ResultView.card d
    else if s.loading = false ∧ d.demographics.isSome = false then
      ResultView.debugPanel d
    else ResultView.emptyView

/-- `\x7berror && ...banner...\x7d`: the banner renders iff the error state
is truthy. -/
def errorBanner (s : SearchState) : Bool := strTruthy s.error

/-! ### Layout helpers for the flat-versus-nested claims -/

/-- A record whose current metrics sit directly on `current` (flat layout). -/
def flatRecord (b : MetricBag) (tc : Option ℚ) : RadiusRecord :=
  { current := some { bag := b }, tract_count := tc }

/-- A record whose current metrics sit only under `current.data`. -/
def nestedRecord (b : MetricBag) (tc : Option ℚ) : RadiusRecord :=
  { current := some { data := some b }, tract_count := tc }

/-- `toFixed(1)` moves a rational by at most one twentieth. -/
theorem toFixed1_sub_le (q : ℚ) : |toFixed1 q - q| ≤ 1 / 20 := by
  have h1 : ((⌊q * 10 + 1 / 2⌋ : ℤ) : ℚ) ≤ q * 10 + 1 / 2 := Int.floor_le _
  have h2 : q * 10 + 1 / 2 < ((⌊q * 10 + 1 / 2⌋ : ℤ) : ℚ) + 1 := Int.lt_floor_add_one _
  rw [toFixed1, abs_le]
  constructor <;> linarith

/-- Case analysis of the shared median-age bounding step. -/
theorem ageBound_cases (a : ℚ) :
    ((a < 0 ∨ 100 < a) → (if a < 0 ∨ 100 < a then (38 : ℚ) else a) = 38) ∧
    (a = 0 → (if a < 0 ∨ 100 < a then (38 : ℚ) else a) = 0) ∧
    (a = 100 → (if a < 0 ∨ 100 < a then (38 : ℚ) else a) = 100) := by
  refine ⟨fun h => if_pos h, fun h => ?_, fun h => ?_⟩
  · subst h
    rw [if_neg (by norm_num)]
  · subst h
    rw [if_neg (by norm_num)]

/-- C1: as stated the claim fails.  The consumers that resolve the bag via
`current.data || current` do normalize the flat and the data-nested layout
to identical values, but the home-value chart and the search-result card
population read only the flat field, so a nested-only record yields 0 there.
This theorem proves the amended claim: layout-independence for every
resolving consumer, and the constant-0 behaviour of the two flat-only
readers on nested records. -/
theorem claim1_layout_amended (b : MetricBag) (tc : Option ℚ) :
    currentBag (some (flatRecord b tc)) = currentBag (some (nestedRecord b tc)) ∧
    rawPopulation (some (flatRecord b tc)) = rawPopulation (some (nestedRecord b tc)) ∧
    rawIncome (some (flatRecord b tc)) = rawIncome (some (nestedRecord b tc)) ∧
    rawAge (some (flatRecord b tc)) = rawAge (some (nestedRecord b tc)) ∧
    rawHomeValue (some (flatRecord b tc)) = rawHomeValue (some (nestedRecord b tc)) ∧
    actualIncomeA (some (flatRecord b tc)) = actualIncomeA (some (nestedRecord b tc)) ∧
    actualAgeA (some (flatRecord b tc)) = actualAgeA (some (nestedRecord b tc)) ∧
    actualIncomeB (some (flatRecord b tc)) = actualIncomeB (some (nestedRecord b tc)) ∧
    actualAgeB (some (flatRecord b tc)) = actualAgeB (some (nestedRecord b tc)) ∧
    actualIncomeDash (some (flatRecord b tc)) = actualIncomeDash (some (nestedRecord b tc)) ∧
    actualHomeValueDash (some (flatRecord b tc)) = actualHomeValueDash (some (nestedRecord b tc)) ∧
    actualAgeDash (some (flatRecord b tc)) = actualAgeDash (some (nestedRecord b tc)) ∧
    calculateIncomeDistribution (some (flatRecord b tc)) =
      calculateIncomeDistribution (some (nestedRecord b tc)) ∧
    currentTotalEdu (some (flatRecord b tc)) = currentTotalEdu (some (nestedRecord b tc)) ∧
    homeValueChartCurrent (some (nestedRecord b tc)) = 0 ∧
    population5MileCard (some (nestedRecord b tc)) = 0 :=
  ⟨rfl, rfl, rfl, rfl, rfl, rfl, rfl, rfl, rfl, rfl, rfl, rfl, rfl, rfl, rfl, rfl⟩

/-- C1 counterexample: a median home value of 500000 present only under
`current.data` normalizes to 0 in the home-value chart, while the flat
layout yields 500000, so not every consumer tolerates both layouts. -/
theorem claim1_layout_counterexample :
    homeValueChartCurrent (some (flatRecord { median_home_value := some 500000 } none)) = 500000 ∧
    homeValueChartCurrent (some (nestedRecord { median_home_value := some 500000 } none)) = 0 ∧
    (500000 : ℚ) ≠ 0 :=
  ⟨rfl, rfl, by norm_num⟩

/-- The record of C2: raw median income 90000 (below the 1000000 threshold)
aggregated over 3 tracts. -/
def w2 : Option RadiusRecord :=
  some { current := some { bag := { median_household_income := some 90000 } },
         tract_count := some 3 }

/-- C2: the unconditional-divide call site (components/PopulationAnalysis)
and the threshold-guarded call site (the DemographicsDetail variant) return
different corrected incomes on a record with tract_count = 3 and raw income
90000 < 1000000, so the two extraction implementations are not
extensionally equal. -/
theorem claim2_income_call_sites_differ :
    rawIncome w2 = 90000 ∧ rawIncome w2 < 1000000 ∧ tractCount w2 = 3 ∧
    actualIncomeA w2 = 30000 ∧ actualIncomeB w2 = 90000 ∧
    actualIncomeA w2 ≠ actualIncomeB w2 := by
  have hraw : rawIncome w2 = 90000 := by
    norm_num [rawIncome, currentBag, resolveBag, jsOr, w2]
  have htc : tractCount w2 = 3 := by
    norm_num [tractCount, jsOr, w2]
  have hA : actualIncomeA w2 = 30000 := by
    norm_num [actualIncomeA, hraw, htc, jsRound]
  have hB : actualIncomeB w2 = 90000 := by
    norm_num [actualIncomeB, hraw, htc]
  refine ⟨hraw, by rw [hraw]; norm_num, htc, hA, hB, ?_⟩
  rw [hA, hB]
  norm_num

/-- C3: on a record with `tract_count = 1` whose raw median age lies in
[0, 100], every normalized scalar at every call site equals the raw
scalar: no division and no rounding adjustment is applied. -/
theorem claim3_tract_count_one_identity (r : RadiusRecord)
    (htc : r.tract_count = some 1)
    (h0 : 0 ≤ rawAge (some r)) (h1 : rawAge (some r) ≤ 100) :
    actualIncomeA (some r) = rawIncome (some r) ∧
    actualIncomeB (some r) = rawIncome (some r) ∧
    actualIncomeDash (some r) = rawIncome (some r) ∧
    actualHomeValueDash (some r) = rawHomeValue (some r) ∧
    actualAgeA (some r) = rawAge (some r) ∧
    actualAgeB (some r) = rawAge (some r) ∧
    actualAgeDash (some r) = rawAge (some r) ∧
    rawPopulation (some r) = jsOr (currentBag (some r)).total_population 0 ∧
    laborForceDash (some r) = jsOr (currentBag (some r)).labor_force 0 ∧
    employedDash (some r) = jsOr (currentBag (some r)).employed 0 := by
  have ht : tractCount (some r) = 1 := by
    simp [tractCount, htc, jsOr]
  have hlt : ¬ (1 < tractCount (some r)) := by
    rw [ht]
    exact lt_irrefl 1
  have hdA : dividedAgeA (some r) = rawAge (some r) := by
    rw [dividedAgeA, if_neg hlt]
  have hdB : dividedAgeB (some r) = rawAge (some r) := by
    rw [dividedAgeB, if_neg fun h => hlt h.1]
  have hdD : dividedAgeDash (some r) = rawAge (some r) := by
    rw [dividedAgeDash, if_neg fun h => hlt h.1]
  refine ⟨?_, ?_, ?_, ?_, ?_, ?_, ?_, rfl, rfl, rfl⟩
  · rw [actualIncomeA, if_neg hlt]
  · rw [actualIncomeB, if_neg fun h => hlt h.1]
  · rw [actualIncomeDash, if_neg hlt]
  · rw [actualHomeValueDash, if_neg hlt]
  · rw [actualAgeA, if_neg (by rw [hdA]; push_neg; exact ⟨h0, h1⟩), hdA]
  · rw [actualAgeB, if_neg (by rw [hdB]; push_neg; exact ⟨h0, h1⟩), hdB]
  · rw [actualAgeDash, if_neg (by rw [hdD]; push_neg; exact ⟨h0, h1⟩), hdD]

/-- The record of the C3 witness: one tract, in-range age. -/
def w3 : RadiusRecord :=
  { current :=
      some { bag := { median_household_income := some 75000
                      median_age := some 41
                      median_home_value := some 300000 } }
    tract_count := some 1 }

/-- C3 witness at a concrete single-tract record. -/
theorem claim3_tract_count_one_witness :
    0 ≤ rawAge (some w3) ∧ rawAge (some w3) ≤ 100 ∧
    actualIncomeA (some w3) = rawIncome (some w3) := by
  have h0 : 0 ≤ rawAge (some w3) := by
    norm_num [rawAge, currentBag, resolveBag, jsOr, w3]
  have h1 : rawAge (some w3) ≤ 100 := by
    norm_num [rawAge, currentBag, resolveBag, jsOr, w3]
  exact ⟨h0, h1, (claim3_tract_count_one_identity w3 rfl h0 h1).1⟩

/-- C4: at each of the three call sites with the age-bounding step, a
post-division age strictly outside [0, 100] is replaced by the fixed
fallback 38, while ages of exactly 0 or exactly 100 are kept unchanged. -/
theorem claim4_age_bounding (r : Option RadiusRecord) :
    ((dividedAgeA r < 0 ∨ 100 < dividedAgeA r) → actualAgeA r = 38) ∧
    (dividedAgeA r = 0 → actualAgeA r = 0) ∧
    (dividedAgeA r = 100 → actualAgeA r = 100) ∧
    ((dividedAgeB r < 0 ∨ 100 < dividedAgeB r) → actualAgeB r = 38) ∧
    (dividedAgeB r = 0 → actualAgeB r = 0) ∧
    (dividedAgeB r = 100 → actualAgeB r = 100) ∧
    ((dividedAgeDash r < 0 ∨ 100 < dividedAgeDash r) → actualAgeDash r = 38) ∧
    (dividedAgeDash r = 0 → actualAgeDash r = 0) ∧
    (dividedAgeDash r = 100 → actualAgeDash r = 100) := by
  have hA := ageBound_cases (dividedAgeA r)
  have hB := ageBound_cases (dividedAgeB r)
  have hD := ageBound_cases (dividedAgeDash r)
  rw [actualAgeA, actualAgeB, actualAgeDash] at *
  exact ⟨hA.1, hA.2.1, hA.2.2, hB.1, hB.2.1, hB.2.2, hD.1, hD.2.1, hD.2.2⟩

/-- The record of the C4 witness: raw age 250 on a single tract. -/
def w4 : Option RadiusRecord :=
  some { current := some { bag := { median_age := some 250 } } }

/-- C4 witness: a post-division age of 250 is outside [0, 100] and the
normalized age becomes 38. -/
theorem claim4_age_bounding_witness :
    (dividedAgeA w4 < 0 ∨ 100 < dividedAgeA w4) ∧ actualAgeA w4 = 38 := by
  have h : dividedAgeA w4 < 0 ∨ 100 < dividedAgeA w4 := by
    refine Or.inr ?_
    norm_num [dividedAgeA, rawAge, tractCount, currentBag, resolveBag, jsOr, w4]
  exact ⟨h, (claim4_age_bounding w4).1 h⟩

/-- The record of C5: 100 current bachelors degrees, no historical data, so
the historical education total is 0. -/
def w5 : Option RadiusRecord :=
  some { current := some { bag := { bachelors_degree := some 100 } } }

/-- C5: the claim is right and the code is wrong at the education call
site.  On a record whose historical education total is 0, the education
growth rate divides by 0 with no guard and produces `NaN`/`Infinity`
(modelled `none`), while the guarded home-value call site on the same
record yields the 0 sentinel as the claim requires. -/
theorem claim5_education_growth_nan :
    historicalTotalEdu w5 = 0 ∧ currentTotalEdu w5 = 100 ∧
    eduGrowthPercent w5 = none ∧ homeValueGrowthPercent w5 = 0 := by
  refine ⟨?_, ?_, ?_, ?_⟩
  · norm_num [historicalTotalEdu, historicalBag, resolveBag, jsOr, w5]
  · norm_num [currentTotalEdu, currentBag, resolveBag, jsOr, w5]
  · norm_num [eduGrowthPercent, jsDiv, historicalTotalEdu, historicalBag, resolveBag, jsOr, w5]
  · norm_num [homeValueGrowthPercent, homeValueChartHistorical, homeValueChartCurrent, jsOr, w5]

/-- The record of C6: current and historical education years both 2022. -/
def w6 : Option RadiusRecord :=
  some { current := some { bag := { bachelors_degree := some 500 }, year := some 2022 }
         historical := some { bag := { bachelors_degree := some 300 }, year := some 2022 } }

/-- C6: the claim is right and the code is wrong.  When the two sampled
years coincide, `progress = 0 / 0` is not special-cased: the single entry
of every interpolated series is `NaN` (modelled `none`) instead of a
well-defined count. -/
theorem claim6_interpolation_nan :
    currentYearOf w6 = 2022 ∧ historicalYearOf w6 = 2022 ∧
    eduTotalSeries w6 = [none] ∧ eduBachelorsSeries w6 = [none] := by
  refine ⟨?_, ?_, ?_, ?_⟩
  · norm_num [currentYearOf, jsOrInt, w6]
  · norm_num [historicalYearOf, jsOrInt, w6]
  · norm_num [eduTotalSeries, eduYearList, currentYearOf, historicalYearOf, jsOrInt, w6,
      List.range_succ, List.range_zero, interpTotalAt, eduProgress, jsDiv]
  · norm_num [eduBachelorsSeries, eduYearList, currentYearOf, historicalYearOf, jsOrInt, w6,
      List.range_succ, List.range_zero, interpBachelorsAt, eduProgress, jsDiv]

/-- C7 counterexample: a nonzero but negative income.  The code guards the
division with `income > 0`, not `income ≠ 0`, so the ratio is 0 rather
than the quotient the claim prescribes for every nonzero income. -/
theorem claim7_negative_income_counterexample :
    (-120000 : ℚ) ≠ 0 ∧ affordabilityRatioOf 600000 (-120000) = 0 ∧
    (600000 : ℚ) / (-120000 : ℚ) ≠ 0 := by
  refine ⟨by norm_num, ?_, by norm_num⟩
  norm_num [affordabilityRatioOf]

/-- C7 amended: the ratio is `homeValue / income` when the income is
strictly positive and 0 when the income is nonpositive (in particular when
it is 0); the bands are inclusive at 3 and at 5; and 600000 over 120000
gives ratio 5 classified Moderately Unaffordable. -/
theorem claim7_affordability_amended :
    (∀ homeValue income : ℚ,
      (0 < income → affordabilityRatioOf homeValue income = homeValue / income) ∧
      (income ≤ 0 → affordabilityRatioOf homeValue income = 0)) ∧
    (∀ x : ℚ,
      (x ≤ 3 → getAffordabilityStatus x = "Affordable") ∧
      (3 < x → x ≤ 5 → getAffordabilityStatus x = "Moderately Unaffordable") ∧
      (5 < x → getAffordabilityStatus x = "Severely Unaffordable")) ∧
    affordabilityRatioOf 600000 120000 = 5 ∧
    getAffordabilityStatus (affordabilityRatioOf 600000 120000) = "Moderately Unaffordable" := by
  have hbands : ∀ x : ℚ,
      (x ≤ 3 → getAffordabilityStatus x = "Affordable") ∧
      (3 < x → x ≤ 5 → getAffordabilityStatus x = "Moderately Unaffordable") ∧
      (5 < x → getAffordabilityStatus x = "Severely Unaffordable") := by
    intro x
    refine ⟨fun h => ?_, fun h3 h5 => ?_, fun h5 => ?_⟩
    · rw [getAffordabilityStatus, if_pos h]
    · rw [getAffordabilityStatus, if_neg (not_le.mpr h3), if_pos h5]
    · rw [getAffordabilityStatus, if_neg (not_le.mpr (lt_trans (by norm_num) h5)),
        if_neg (not_le.mpr h5)]
  have hconc : affordabilityRatioOf 600000 120000 = 5 := by
    norm_num [affordabilityRatioOf]
  refine ⟨fun homeValue income => ⟨fun h => ?_, fun h => ?_⟩, hbands, hconc, ?_⟩
  · rw [affordabilityRatioOf, if_pos h]
  · rw [affordabilityRatioOf, if_neg (not_lt.mpr h)]
  · rw [hconc]
    exact (hbands 5).2.1 (by norm_num) le_rfl

/-- C7 witness: the positive-income branch at the documented example. -/
theorem claim7_affordability_witness :
    (0 : ℚ) < 120000 ∧ affordabilityRatioOf 600000 120000 = 600000 / 120000 :=
  ⟨by norm_num, (claim7_affordability_amended.1 600000 120000).1 (by norm_num)⟩

/-- C8: whenever the bucket total is nonzero the four displayed
percentages sum to 100 within rounding tolerance (each `toFixed(1)` moves
a summand by at most 1/20, so the sum is within 1/5 of 100), and when the
bucket total is zero or the radius is absent each percentage is exactly
25. -/
theorem claim8_income_distribution (r : RadiusRecord) :
    (incomeTotal (resolveBag r.current) ≠ 0 →
      |distSum (calculateIncomeDistribution (some r)) - 100| ≤ 1 / 5) ∧
    (incomeTotal (resolveBag r.current) = 0 →
      calculateIncomeDistribution (some r) = (25, 25, 25, 25)) ∧
    calculateIncomeDistribution none = (25, 25, 25, 25) := by
  have key : ∀ u v w x t : ℚ, t = u + v + w + x → t ≠ 0 →
      |toFixed1 (u / t * 100) + toFixed1 (v / t * 100) + toFixed1 (w / t * 100) +
        toFixed1 (x / t * 100) - 100| ≤ 1 / 5 := by
    intro u v w x t ht h
    have hsum : u / t * 100 + v / t * 100 + w / t * 100 + x / t * 100 = 100 := by
      have hq : u / t * 100 + v / t * 100 + w / t * 100 + x / t * 100 =
          (u + v + w + x) / t * 100 := by ring
      rw [hq, ← ht, div_self h]
      norm_num
    have e1 := toFixed1_sub_le (u / t * 100)
    have e2 := toFixed1_sub_le (v / t * 100)
    have e3 := toFixed1_sub_le (w / t * 100)
    have e4 := toFixed1_sub_le (x / t * 100)
    rw [abs_le] at e1 e2 e3 e4 ⊢
    constructor <;> [linarith; linarith]
  refine ⟨fun h => ?_, fun h => ?_, rfl⟩
  · simp only [calculateIncomeDistribution, distSum, if_neg h]
    exact key _ _ _ _ _ rfl h
  · simp only [calculateIncomeDistribution, if_pos h]

/-- The record of the C8 witness: sub-band counts 10/20/30/40. -/
def w8 : RadiusRecord :=
  { current :=
      some { bag := { income_less_10k := some 10
                      income_50k_60k := some 20
                      income_100k_125k := some 30
                      income_150k_200k := some 40 } } }

/-- C8 witness: nonzero bucket total 100 at a concrete record. -/
theorem claim8_income_distribution_witness :
    incomeTotal (resolveBag w8.current) ≠ 0 ∧
    |distSum (calculateIncomeDistribution (some w8)) - 100| ≤ 1 / 5 := by
  have h : incomeTotal (resolveBag w8.current) ≠ 0 := by
    norm_num [incomeTotal, under50k, from50kTo100k, from100kTo150k, from150kPlus,
      resolveBag, jsOr, w8]
  exact ⟨h, (claim8_income_distribution w8).1 h⟩

/-- The response of the C9 counterexample: an empty-string error together
with a demographics payload. -/
def d0 : DemographicsResponse := { error := some "", demographics := some {} }

/-- C9 counterexample: an empty-string error is non-null, yet JS truthiness
treats it as no error, so the response is stored as the displayed result,
the card receives its demographics content, and no error banner renders. -/
theorem claim9_empty_error_counterexample :
    d0.error ≠ none ∧ (handleResponse d0).result = some d0 ∧
    resultView (handleResponse d0) = ResultView.card d0 ∧
    errorBanner (handleResponse d0) = false := by
  refine ⟨?_, rfl, rfl, rfl⟩
  simp [d0]

/-- C9 amended: for every response whose error field is a truthy (nonempty)
string, the submit handler stores no result, the results area renders
neither the card nor the debug panel, and the error banner renders. -/
theorem claim9_error_gating_amended (d : DemographicsResponse)
    (h : strTruthy d.error = true) :
    (handleResponse d).result = none ∧
    resultView (handleResponse d) = ResultView.emptyView ∧
    errorBanner (handleResponse d) = true := by
  simp [handleResponse, h, errorBanner, resultView]

/-- C9 witness at the documented "No address found" error message. -/
theorem claim9_error_gating_witness :
    strTruthy ({ error := some "No address found" } : DemographicsResponse).error = true ∧
    resultView (handleResponse { error := some "No address found" }) = ResultView.emptyView :=
  ⟨rfl, (claim9_error_gating_amended { error := some "No address found" } rfl).2.1⟩

/-- C10: when the resolved current bag lacks `median_age`, the field
defaults to 0, the divisions leave 0 unchanged, 0 lies inside [0, 100],
and every call site normalizes the age to 0 - the 38 fallback never fires
on missing data. -/
theorem claim10_missing_age_zero (r : Option RadiusRecord)
    (h : (currentBag r).median_age = none) :
    actualAgeA r = 0 ∧ actualAgeB r = 0 ∧ actualAgeDash r = 0 := by
  have hraw : rawAge r = 0 := by
    simp [rawAge, h, jsOr]
  have hdA : dividedAgeA r = 0 := by
    rw [dividedAgeA]
    split_ifs
    · rw [hraw, zero_div]
    · exact hraw
  have hdB : dividedAgeB r = 0 := by
    rw [dividedAgeB, if_neg fun hc => by rw [hraw] at hc; exact absurd hc.2 (by norm_num)]
    exact hraw
  have hdD : dividedAgeDash r = 0 := by
    rw [dividedAgeDash, if_neg fun hc => by rw [hraw] at hc; exact absurd hc.2 (by norm_num)]
    exact hraw
  refine ⟨?_, ?_, ?_⟩
  · rw [actualAgeA, if_neg (by rw [hdA]; norm_num), hdA]
  · rw [actualAgeB, if_neg (by rw [hdB]; norm_num), hdB]
  · rw [actualAgeDash, if_neg (by rw [hdD]; norm_num), hdD]

/-- C10 witness: the wholly absent radius record normalizes its age to 0. -/
theorem claim10_missing_age_zero_witness :
    (currentBag (none : Option RadiusRecord)).median_age = none ∧
    actualAgeA (none : Option RadiusRecord) = 0 :=
  ⟨rfl, (claim10_missing_age_zero none rfl).1⟩

end CapMatch
